import Mathlib

/-!
Verification of the MCP_Noble command-execution gateway.

The repository contains two server variants:
- `src/simple_http_server.py` (the "simple" variant): rate limiter on every
  POST, session store with a separate `command_history` table capped at 100,
  a basename whitelist, a dangerous-substring scan, and subprocess execution
  with per-stream output truncation.
- `src/advanced_server.py` (the "advanced" variant): session store holding a
  per-session `history` list capped at 50, a basename whitelist with an
  unrestricted sentinel, and subprocess execution; it has no rate limiter,
  no dangerous-substring scan, and no output truncation.

Both are embedded below as pure state-passing functions.  `time.time()` and
`datetime.now()` are modelled by an explicit `now : Int` parameter; what the
operating system does when a subprocess runs is modelled by an oracle
`exec : String -> ProcOutcome` supplied by the environment, and the fact that
the handler reached its spawn call (with which parameters) is reported in the
returned `List SpawnSpec`.
-/

/-- Association-list lookup, modelling Python `dict` access (`d.get(k)` /
`k in d`).  Python dictionaries hold at most one entry per key; all states
built here go through `updateA` / `eraseA`, which preserve that reading. -/
def lookupA {α : Type} (k : String) : List (String × α) → Option α
  | [] => none
  | (k', v) :: rest => if k = k' then some v else lookupA k rest

/-- Association-list update/insert, modelling Python `d[k] = v`. -/
def updateA {α : Type} (k : String) (v : α) : List (String × α) → List (String × α)
  | [] => [(k, v)]
  | (k', v') :: rest => if k = k' then (k, v) :: rest else (k', v') :: updateA k v rest

/-- Association-list removal, modelling Python `del d[k]`. -/
def eraseA {α : Type} (k : String) (l : List (String × α)) : List (String × α) :=
  l.filter (fun p => !(p.1 == k))

/-- Split a character list at every character satisfying `p`, keeping empty
pieces — the splitting behaviour of Python `str.split(sep)` lifted to a
predicate. -/
def splitPred (p : Char → Bool) : List Char → List (List Char)
  | [] => [[]]
  | x :: xs =>
    if p x then [] :: splitPred p xs
    else
      match splitPred p xs with
      | h :: t => (x :: h) :: t
      | [] => [[x]]

/-- Python `s.split(',')` (empty pieces kept), as used on `ALLOWED_COMMANDS`. -/
def splitCommas (s : String) : List String :=
  (splitPred (fun c => c == ',') s.data).map (fun l => ⟨l⟩)

/-- Python `str.split()` with no argument: split on whitespace runs and
discard empty pieces.  Used for basename extraction `command.split()[0]`. -/
def pySplit (s : String) : List String :=
  ((splitPred Char.isWhitespace s.data).filter (fun l => !l.isEmpty)).map (fun l => ⟨l⟩)

/-- Python `pattern in command` for strings: substring containment. -/
def substrIn (p s : String) : Bool :=
  s.data.tails.any (fun t => p.data.isPrefixOf t)

/-- Python `s[:n]` on a `str`: the first `n` characters. -/
def strTake (s : String) (n : Nat) : String :=
  ⟨s.data.take n⟩

/-- `SESSION_TIMEOUT = 3600` (both variants). -/
def SESSION_TIMEOUT : Int := 3600

/-- The `PATH` value the simple variant forces into the child environment. -/
def minimalPath : String := "/usr/local/bin:/usr/bin:/bin"

/-- The default `ALLOWED_COMMANDS` configuration string (both variants). -/
def defaultAllowedCommands : String :=
  "ls,cat,pwd,grep,find,git,python3,node,npm,pip,curl,wget,wc,head,tail,ps,df,free,uname,whoami,date,echo,which"

/-- The default `RATE_LIMIT` configuration value (requests per minute). -/
def defaultRateLimit : Nat := 60

/-- `dangerous_patterns` from `simple_http_server.handle_execute`
(the advanced variant has no such list). -/
def dangerous_patterns : List String :=
  ["..", "~/", "/etc/", "/root/", "$(", "$\x7b", "\x60", ";rm", ";sudo"]

/-- The JSON object a handler sends (or stores in history); absent keys are
`none`.  Mirrors the Python result dictionaries. -/
structure Body where
  success : Option Bool := none
  error : Option String := none
  output : Option String := none
  exit_code : Option Int := none
  command : Option String := none
deriving DecidableEq

/-- An HTTP response: transport status code plus JSON body. -/
structure Response where
  status : Nat
  body : Body
deriving DecidableEq

/-- One entry of a session's command history (`add_command` in both
variants); `datetime.now().isoformat()` is modelled by the numeric `now`. -/
structure CommandRecord where
  timestamp : Int
  command : String
  result : Body
deriving DecidableEq

/-- What the operating system did with a spawned subprocess: it completed
with captured stdout/stderr and a return code, it was still running at the
timeout deadline (`subprocess.TimeoutExpired`), or some other exception was
raised with message `msg`. -/
inductive ProcOutcome where
  | completed (stdout stderr : String) (returncode : Int)
  | timedOut
  | raised (msg : String)
deriving DecidableEq

/-- The parameters a handler passed to its subprocess-spawn call
(`subprocess.Popen` / `subprocess.run`): command text, working directory,
and child environment. -/
structure SpawnSpec where
  cmd : String
  cwd : String
  env : String → Option String

/-- Placeholder spawn record, used only to read off the head of a
spawn list that is provably non-empty. -/
def noSpawn : SpawnSpec := { cmd := "", cwd := "", env := fun _ => none }

/-- `RateLimiter.is_allowed` from `simple_http_server.py`, acting on one
client's stored timestamp list: keep timestamps `t` with `t > now - 60`
(the cleaned list is stored back even on denial), deny without recording if
already at the limit, otherwise record `now` and admit. -/
def rlIsAllowed (limit : Nat) (reqs : List Int) (now : Int) : Bool × List Int :=
  let kept := reqs.filter (fun t => now - 60 < t)
  if limit ≤ kept.length then (false, kept)
  else (true, kept ++ [now])

/-- `RateLimiter.is_allowed` at the table level: missing clients start with
an empty list. -/
def rlAllowTable (limit : Nat) (table : List (String × List Int)) (ip : String)
    (now : Int) : Bool × List (String × List Int) :=
  let reqs := (lookupA ip table).getD []
  let r := rlIsAllowed limit reqs now
  (r.1, updateA ip r.2 table)

/-- Modelled from the spec words of C9, for refinement comparison only:
"drop all stored timestamps older than 60 seconds before now" read strictly,
that is drop exactly the `t < now - 60` and keep every `t ≥ now - 60`;
then deny without recording at the limit, else record and admit. -/
def claimRlIsAllowed (limit : Nat) (reqs : List Int) (now : Int) : Bool × List Int :=
  let kept := reqs.filter (fun t => now - 60 ≤ t)
  if limit ≤ kept.length then (false, kept)
  else (true, kept ++ [now])

/-- A session record of the simple variant (`command_history` lives in a
separate table there). -/
structure SimpleSession where
  created : Int
  last_access : Int
  commands_run : Nat
deriving DecidableEq

/-- The simple variant's mutable server state: `SessionManager.sessions`,
`SessionManager.command_history`, and `RateLimiter.requests`. -/
structure SimpleState where
  sessions : List (String × SimpleSession)
  command_history : List (String × List CommandRecord)
  rate : List (String × List Int)
deriving DecidableEq

/-- `SessionManager.create_session` (simple variant); the random token is a
parameter `sid`. -/
def simpleCreateSession (st : SimpleState) (now : Int) (sid : String) : SimpleState :=
  { st with
    sessions := updateA sid { created := now, last_access := now, commands_run := 0 } st.sessions,
    command_history := updateA sid [] st.command_history }

/-- `SessionManager.validate_session` (simple variant): unknown id fails;
idle strictly longer than `SESSION_TIMEOUT` deletes the session and its
history and fails; otherwise `last_access` is refreshed and it succeeds. -/
def simpleValidate (st : SimpleState) (now : Int) (sid : String) : Bool × SimpleState :=
  match lookupA sid st.sessions with
  | none => (false, st)
  | some s =>
    if SESSION_TIMEOUT < now - s.last_access then
      (false, { st with
        sessions := eraseA sid st.sessions,
        command_history := eraseA sid st.command_history })
    else
      (true, { st with sessions := updateA sid { s with last_access := now } st.sessions })

/-- The simple variant's post-append history trimming:
`if len(history) > 100: history.pop(0)`. -/
def capSimple (h : List CommandRecord) : List CommandRecord :=
  if 100 < h.length then h.tail else h

/-- `SessionManager.add_command` (simple variant): only acts when the id has
a history entry; appends the record, pops the oldest entry once the length
exceeds 100, and increments `commands_run`.  (When the id is in
`command_history` it is also in `sessions` — creation and expiry keep the
two tables' key sets equal — so the Python `KeyError` path is unreachable
and the missing-session case is modelled as leaving `sessions` unchanged.) -/
def simpleAddCommand (st : SimpleState) (now : Int) (sid cmd : String) (result : Body) :
    SimpleState :=
  match lookupA sid st.command_history with
  | none => st
  | some hist =>
    { st with
      command_history :=
        updateA sid
          (capSimple (hist ++ [{ timestamp := now, command := cmd, result := result }]))
          st.command_history,
      sessions :=
        match lookupA sid st.sessions with
        | none => st.sessions
        | some s => updateA sid { s with commands_run := s.commands_run + 1 } st.sessions }

/-- The denial message of `simple_http_server.handle_execute` for a
disallowed basename, including the sampled allowed list. -/
def mkNotAllowedMsg (base : String) (allowed : List String) : String :=
  let msg := "Command \x27" ++ base ++ "\x27 is not allowed. " ++
    "Allowed commands: " ++ String.intercalate (", ") (allowed.take 10)
  if 10 < allowed.length then msg ++ " and " ++ toString (allowed.length - 10) ++ " more"
  else msg

/-- The simple variant's dangerous-pattern denial message. -/
def dangerMsg (p : String) : String :=
  "Security violation: dangerous pattern \x22" ++ p ++ "\x22 detected"

/-- The marker appended to truncated stdout (the Python source writes the
escape `\\n`, a literal backslash followed by `n`). -/
def truncMarkerOut (maxOutput : Nat) : String :=
  "\\n... (output truncated at " ++ toString maxOutput ++ " bytes)"

/-- The marker appended to truncated stderr. -/
def truncMarkerErr (maxOutput : Nat) : String :=
  "\\n... (error output truncated at " ++ toString maxOutput ++ " bytes)"

/-- Per-stream truncation of `simple_http_server.handle_execute`:
`s[:max_output] + marker` when `len(s) > max_output`, otherwise `s`. -/
def truncateStream (maxOutput : Nat) (marker : String) (s : String) : String :=
  if maxOutput < s.length then strTake s maxOutput ++ marker else s

/-- A failure body of the simple variant (`success: False` plus a reason). -/
def simpleDeniedBody (msg : String) : Body :=
  { success := some false, error := some msg }

/-- The result dictionary the simple variant builds from the subprocess
outcome: on completion, truncated streams and the exit code; on
`TimeoutExpired`, the timeout failure (note: the handler does not terminate
the child in that branch); on any other exception, a generic failure. -/
def simpleExecBody (timeout maxOutput : Nat) : ProcOutcome → Body
  | .completed out err rc =>
    { success := some true,
      output := some (truncateStream maxOutput (truncMarkerOut maxOutput) out),
      error := some (truncateStream maxOutput (truncMarkerErr maxOutput) err),
      exit_code := some rc }
  | .timedOut =>
    simpleDeniedBody ("Command timed out after " ++ toString timeout ++ " seconds")
  | .raised msg => simpleDeniedBody ("Execution error: " ++ msg)

/-- The child environment of the simple variant's `Popen` call:
`env = \x7b**os.environ, 'PATH': '/usr/local/bin:/usr/bin:/bin'\x7d`, i.e. the full
inherited environment with only `PATH` overridden. -/
def simpleSpawnEnv (osEnv : String → Option String) : String → Option String :=
  fun k => if k = "PATH" then some minimalPath else osEnv k

/-- `MCPHTTPHandler.handle_execute` of `simple_http_server.py`: session
validation, empty-command check, basename whitelist, dangerous-pattern scan,
then execution with truncation; every outcome past the session check is sent
with HTTP 200 (`send_json_response`), while an invalid session gets
`send_error(401)`. -/
def simpleHandleExecute (allowedStr : String) (timeout maxOutput : Nat) (home : String)
    (osEnv : String → Option String) (exec : String → ProcOutcome)
    (st : SimpleState) (now : Int) (cmd sid : String) :
    Response × SimpleState × List SpawnSpec :=
  if (simpleValidate st now sid).1 = false then
    ({ status := 401, body := { error := some ("Invalid or expired session") } },
     (simpleValidate st now sid).2, [])
  else
    let st1 := (simpleValidate st now sid).2
    if cmd = "" then
      ({ status := 200, body := simpleDeniedBody ("No command provided") }, st1, [])
    else
      let allowed := splitCommas allowedStr
      let base := (pySplit cmd).headD ""
      if allowed.contains base = false then
        let b := simpleDeniedBody (mkNotAllowedMsg base allowed)
        ({ status := 200, body := b }, simpleAddCommand st1 now sid cmd b, [])
      else
        match dangerous_patterns.find? (fun p => substrIn p cmd) with
        | some p =>
          let b := simpleDeniedBody (dangerMsg p)
          ({ status := 200, body := b }, simpleAddCommand st1 now sid cmd b, [])
        | none =>
          let b := simpleExecBody timeout maxOutput (exec cmd)
          ({ status := 200, body := b }, simpleAddCommand st1 now sid cmd b,
           [{ cmd := cmd, cwd := home, env := simpleSpawnEnv osEnv }])

/-- `MCPHTTPHandler.do_POST` of `simple_http_server.py` for the `/execute`
route: the rate limiter is consulted first for every POST (its cleaned or
extended state is stored back either way); denial answers 429 and nothing
else runs. -/
def simpleDoPost (limit : Nat) (allowedStr : String) (timeout maxOutput : Nat)
    (home : String) (osEnv : String → Option String) (exec : String → ProcOutcome)
    (st : SimpleState) (now : Int) (ip cmd sid : String) :
    Response × SimpleState × List SpawnSpec :=
  let st1 : SimpleState := { st with rate := (rlAllowTable limit st.rate ip now).2 }
  if (rlAllowTable limit st.rate ip now).1 = false then
    ({ status := 429, body := { error := some ("Too Many Requests") } }, st1, [])
  else
    simpleHandleExecute allowedStr timeout maxOutput home osEnv exec st1 now cmd sid

/-- A session record of the advanced variant (the history is stored inside
the session object there). -/
structure AdvSession where
  created : Int
  last_access : Int
  history : List CommandRecord
deriving DecidableEq

/-- The advanced variant's mutable server state (`SessionManager.sessions`;
there is no rate-limiter table in `advanced_server.py`). -/
structure AdvState where
  sessions : List (String × AdvSession)
deriving DecidableEq

/-- `SessionManager.create_session` (advanced variant); the random token is
a parameter `sid`. -/
def advCreateSession (st : AdvState) (now : Int) (sid : String) : AdvState :=
  { sessions := updateA sid { created := now, last_access := now, history := [] } st.sessions }

/-- `SessionManager.validate_session` (advanced variant): unknown id fails;
idle strictly longer than `SESSION_TIMEOUT` deletes the session and fails;
otherwise `last_access` is refreshed and the session is returned. -/
def advValidate (st : AdvState) (now : Int) (sid : String) : Option AdvSession × AdvState :=
  match lookupA sid st.sessions with
  | none => (none, st)
  | some s =>
    if SESSION_TIMEOUT < now - s.last_access then
      (none, { sessions := eraseA sid st.sessions })
    else
      (some { s with last_access := now },
       { sessions := updateA sid { s with last_access := now } st.sessions })

/-- Python `history[-50:]`: the last (at most) 50 elements. -/
def capAdv (h : List CommandRecord) : List CommandRecord :=
  h.drop (h.length - 50)

/-- `SessionManager.add_command` (advanced variant): validates first (a
silent no-op on failure), appends the record, and keeps the last 50
entries. -/
def advAddCommand (st : AdvState) (now : Int) (sid cmd : String) (result : Body) : AdvState :=
  match advValidate st now sid with
  | (none, st') => st'
  | (some s, st') =>
    let hist := capAdv (s.history ++ [{ timestamp := now, command := cmd, result := result }])
    { sessions := updateA sid { s with history := hist } st'.sessions }

/-- The advanced variant's basename-denial body:
`\x7b'success': False, 'error': ..., 'output': '', 'exit_code': -1, 'command': ...\x7d`. -/
def advDeniedBody (base cmd : String) : Body :=
  { success := some false,
    error := some ("Command \x27" ++ base ++ "\x27 is not allowed."),
    output := some "",
    exit_code := some (-1),
    command := some cmd }

/-- Python `str(subprocess.TimeoutExpired(cmd, timeout))`. -/
def timeoutExpiredStr (cmd : String) (timeout : Nat) : String :=
  "Command \x27" ++ cmd ++ "\x27 timed out after " ++ toString timeout ++ " seconds"

/-- `MCPHTTPHandler.serve_api_execute` of `advanced_server.py`, which is the
entire POST `/api/execute` pipeline there (`do_POST` dispatches to it
directly — the advanced variant has no rate limiter): session validation
(403), empty-command check (400), basename extraction — which raises
`IndexError` on a whitespace-only command, caught by the surrounding
`except` as a 500 "Server Execution Error" —, the whitelist check unless
`ALLOWED_COMMANDS` is the `*` sentinel (403, recorded), then `subprocess.run`
with no output truncation and no dangerous-pattern scan; `TimeoutExpired`
and any other exception reach the same generic 500 handler, unrecorded. -/
def advServeApiExecute (allowedStr : String) (timeout : Nat) (home : String)
    (osEnv : String → Option String) (exec : String → ProcOutcome)
    (st : AdvState) (now : Int) (cmd sid : String) :
    Response × AdvState × List SpawnSpec :=
  if (advValidate st now sid).1.isSome = false then
    ({ status := 403, body := { error := some ("Invalid or expired session") } },
     (advValidate st now sid).2, [])
  else
    let st1 := (advValidate st now sid).2
    if cmd = "" then
      ({ status := 400, body := { error := some ("Command cannot be empty") } }, st1, [])
    else
      match (pySplit cmd).head? with
      | none =>
        ({ status := 500,
           body := { error := some ("Server Execution Error: list index out of range") } },
         st1, [])
      | some base =>
        if allowedStr = "*" ∨ (splitCommas allowedStr).contains base = true then
          let spawn : SpawnSpec := { cmd := cmd, cwd := home, env := osEnv }
          match exec cmd with
          | .completed out err rc =>
            let b : Body :=
              { success := some true, command := some cmd, output := some out,
                error := some err, exit_code := some rc }
            ({ status := 200, body := b }, advAddCommand st1 now sid cmd b, [spawn])
          | .timedOut =>
            ({ status := 500,
               body := { error := some ("Server Execution Error: " ++
                 timeoutExpiredStr cmd timeout) } }, st1, [spawn])
          | .raised msg =>
            ({ status := 500,
               body := { error := some ("Server Execution Error: " ++ msg) } }, st1, [spawn])
        else
          let b := advDeniedBody base cmd
          ({ status := 403, body := b }, advAddCommand st1 now sid cmd b, [])

/-- `n` consecutive POST `/api/execute` requests for the command `ls` on the
advanced server, all at the same instant, counting how many subprocesses are
spawned in total. -/
def advRun (allowedStr : String) (exec : String → ProcOutcome) :
    Nat → AdvState → Nat × AdvState
  | 0, st => (0, st)
  | n + 1, st =>
    let r := advServeApiExecute allowedStr 30 "/home/mcp" (fun _ => none) exec st 0 "ls" "sid"
    let rest := advRun allowedStr exec n r.2.1
    (r.2.2.length + rest.1, rest.2)

/-! ### Association-list lemmas -/

theorem lookupA_updateA {α : Type} (k k' : String) (v : α) (l : List (String × α)) :
    lookupA k (updateA k' v l) = if k = k' then some v else lookupA k l := by
  induction l with
  | nil => simp [updateA, lookupA]
  | cons p rest ih =>
    obtain ⟨a, b⟩ := p
    by_cases h1 : k' = a
    · subst h1
      by_cases h2 : k = k' <;> simp [updateA, lookupA, h2]
    · by_cases h2 : k = a
      · subst h2
        have h3 : ¬ k = k' := fun h => h1 h.symm
        simp [updateA, lookupA, h1, h3]
      · simp [updateA, lookupA, h1, h2, ih]

theorem lookupA_eraseA_self {α : Type} (k : String) (l : List (String × α)) :
    lookupA k (eraseA k l) = none := by
  induction l with
  | nil => rfl
  | cons p rest ih =>
    obtain ⟨a, b⟩ := p
    by_cases h : a = k
    · simpa [eraseA, List.filter_cons, h] using ih
    · have hk : ¬ k = a := fun hh => h hh.symm
      simpa [eraseA, List.filter_cons, h, lookupA, hk] using ih

theorem lookupA_eraseA_ne {α : Type} {k k' : String} (h : k ≠ k') (l : List (String × α)) :
    lookupA k (eraseA k' l) = lookupA k l := by
  induction l with
  | nil => rfl
  | cons p rest ih =>
    obtain ⟨a, b⟩ := p
    by_cases h1 : a = k'
    · have hk : ¬ k = a := fun hh => h (hh.trans h1)
      simpa [eraseA, List.filter_cons, h1, lookupA, hk, h] using ih
    · by_cases h2 : k = a
      · simp [eraseA, List.filter_cons, h1, lookupA, h2]
      · simpa [eraseA, List.filter_cons, h1, lookupA, h2] using ih

theorem updateA_updateA {α : Type} (k : String) (v w : α) (l : List (String × α)) :
    updateA k v (updateA k w l) = updateA k v l := by
  induction l with
  | nil => simp [updateA]
  | cons p rest ih =>
    obtain ⟨a, b⟩ := p
    by_cases h1 : k = a <;> simp [updateA, h1, ih]

/-! ### Characterization lemmas for the session stores -/

theorem advValidate_unknown (st : AdvState) (now : Int) (sid : String)
    (h : lookupA sid st.sessions = none) :
    advValidate st now sid = (none, st) := by
  simp [advValidate, h]

theorem advValidate_expired (st : AdvState) (now : Int) (sid : String) (s : AdvSession)
    (h : lookupA sid st.sessions = some s)
    (hexp : SESSION_TIMEOUT < now - s.last_access) :
    advValidate st now sid = (none, { sessions := eraseA sid st.sessions }) := by
  simp [advValidate, h, hexp]

theorem advValidate_fresh (st : AdvState) (now : Int) (sid : String) (s : AdvSession)
    (h : lookupA sid st.sessions = some s)
    (hok : ¬ SESSION_TIMEOUT < now - s.last_access) :
    advValidate st now sid =
      (some { s with last_access := now },
       { sessions := updateA sid { s with last_access := now } st.sessions }) := by
  simp [advValidate, h, hok]

theorem advAddCommand_eq (st : AdvState) (now : Int) (sid cmd : String) (b : Body)
    (s : AdvSession) (h : lookupA sid st.sessions = some s)
    (hok : ¬ SESSION_TIMEOUT < now - s.last_access) :
    advAddCommand st now sid cmd b =
      { sessions := updateA sid
          { created := s.created, last_access := now,
            history := capAdv (s.history ++ [{ timestamp := now, command := cmd, result := b }]) }
          st.sessions } := by
  simp only [advAddCommand, advValidate_fresh st now sid s h hok]
  simp [updateA_updateA]

theorem simpleValidate_unknown (st : SimpleState) (now : Int) (sid : String)
    (h : lookupA sid st.sessions = none) :
    simpleValidate st now sid = (false, st) := by
  simp [simpleValidate, h]

theorem simpleValidate_expired (st : SimpleState) (now : Int) (sid : String)
    (s : SimpleSession) (h : lookupA sid st.sessions = some s)
    (hexp : SESSION_TIMEOUT < now - s.last_access) :
    simpleValidate st now sid =
      (false, { st with
        sessions := eraseA sid st.sessions,
        command_history := eraseA sid st.command_history }) := by
  simp [simpleValidate, h, hexp]

theorem simpleValidate_fresh (st : SimpleState) (now : Int) (sid : String)
    (s : SimpleSession) (h : lookupA sid st.sessions = some s)
    (hok : ¬ SESSION_TIMEOUT < now - s.last_access) :
    simpleValidate st now sid =
      (true, { st with sessions := updateA sid { s with last_access := now } st.sessions }) := by
  simp [simpleValidate, h, hok]

theorem simpleValidate_rate (st : SimpleState) (r : List (String × List Int))
    (now : Int) (sid : String) :
    simpleValidate { st with rate := r } now sid =
      ((simpleValidate st now sid).1, { (simpleValidate st now sid).2 with rate := r }) := by
  unfold simpleValidate
  cases h : lookupA sid st.sessions with
  | none => simp [h]
  | some s =>
    by_cases hexp : SESSION_TIMEOUT < now - s.last_access <;> simp [h, hexp]

theorem simpleAddCommand_history (st : SimpleState) (now : Int) (sid cmd : String)
    (b : Body) (hist : List CommandRecord)
    (h : lookupA sid st.command_history = some hist) :
    lookupA sid (simpleAddCommand st now sid cmd b).command_history =
      some (capSimple (hist ++ [{ timestamp := now, command := cmd, result := b }])) := by
  cases hs : lookupA sid st.sessions <;>
    simp [simpleAddCommand, h, hs, lookupA_updateA]

/-! ### Shared demo states for witnesses and counterexamples -/

/-- A one-session advanced-server state with a fresh session `sid`. -/
def advDemoState : AdvState :=
  { sessions := [("sid", { created := 0, last_access := 0, history := [] })] }

/-- A one-session simple-server state with a fresh session `sid`. -/
def simpleDemoState : SimpleState :=
  { sessions := [("sid", { created := 0, last_access := 0, commands_run := 0 })],
    command_history := [("sid", [])],
    rate := [] }

/-- Appending to a non-empty list commutes with `tail`. -/
theorem tail_append_of_ne_nil {α : Type} (l l2 : List α) (h : l ≠ []) :
    (l ++ l2).tail = l.tail ++ l2 := by
  cases l with
  | nil => exact absurd rfl h
  | cons a t => rfl

/-! ### C9 — rate limiter -/

/-- C9 counterexample.  The claim says a call first drops all stored
timestamps *older than* 60 seconds before now and then denies when the
remaining count reaches the limit.  At `limit = 1`, stored list `[0]`,
`now = 60`, the stored timestamp is exactly 60 seconds old, not older, so
the claimed algorithm (`claimRlIsAllowed`) keeps it and denies — but the
code (`rlIsAllowed`, which keeps only `t > now - 60`) drops it and admits
the request. -/
theorem c9_counterexample :
    (rlIsAllowed 1 [0] 60).1 = true ∧ (rlIsAllowed 1 [0] 60).2 = [60] ∧
    (claimRlIsAllowed 1 [0] 60).1 = false := by
  decide

/-- C9 (amended): on each call the rate limiter keeps exactly the stored
timestamps `t` with `now - 60 < t` (so timestamps 60 or more seconds old
are dropped, including the one exactly 60 seconds old); if at least
`limit` remain it denies without recording the request (the trimmed list
is stored back); otherwise it appends `now` and admits.  Consequently the
`(limit+1)`-th request whose predecessors all lie strictly within the last
60 seconds is denied, and once every stored timestamp is at least 60
seconds old admission resumes. -/
theorem c9_rate_limiter_amended (limit : Nat) (reqs : List Int) (now : Int) :
    (limit ≤ (reqs.filter (fun t => now - 60 < t)).length →
      rlIsAllowed limit reqs now = (false, reqs.filter (fun t => now - 60 < t))) ∧
    ((reqs.filter (fun t => now - 60 < t)).length < limit →
      rlIsAllowed limit reqs now = (true, reqs.filter (fun t => now - 60 < t) ++ [now])) ∧
    ((∀ t ∈ reqs, t ≤ now - 60) → 0 < limit → (rlIsAllowed limit reqs now).1 = true) := by
  refine ⟨?_, ?_, ?_⟩
  · intro h
    simp [rlIsAllowed, h]
  · intro h
    simp [rlIsAllowed, Nat.not_le.mpr h]
  · intro hall hpos
    have hnil : reqs.filter (fun t => now - 60 < t) = [] := by
      refine List.filter_eq_nil_iff.mpr ?_
      intro t ht
      simpa using Int.not_lt.mpr (hall t ht)
    have hne : ¬ limit = 0 := by omega
    simp [rlIsAllowed, hnil, hne]

/-- C9 witness: two requests admitted at times 10 and 30 with limit 2 make
the call at time 35 denied without recording. -/
theorem c9_witness : rlIsAllowed 2 [10, 30] 35 = (false, [10, 30]) :=
  (c9_rate_limiter_amended 2 [10, 30] 35).1 (by decide)

/-! ### C7 — session validation and expiry -/

/-- C7 counterexample.  The claim says `validate` after exactly
`SESSION_TIMEOUT` (3600) seconds of inactivity returns Invalid; both
variants compare with a strict `now - last_access > SESSION_TIMEOUT`, so at
exactly 3600 seconds of idle time the session is still accepted. -/
theorem c7_counterexample :
    (advValidate advDemoState 3600 "sid").1.isSome = true ∧
    (simpleValidate simpleDemoState 3600 "sid").1 = true := by
  exact ⟨rfl, rfl⟩

/-- C7 (amended): in both variants, `validate` succeeds iff the session
exists and its idle time is at most `SESSION_TIMEOUT` (so it first fails
only strictly after `SESSION_TIMEOUT` seconds of inactivity); an expired
session is deleted as a side effect (in the simple variant together with
its command history), so a subsequent lookup finds nothing; and every
successful validation refreshes `last_access` to the current time. -/
theorem c7_session_validation_amended (ast : AdvState) (sst : SimpleState)
    (now : Int) (sid : String) :
    ((advValidate ast now sid).1.isSome = true ↔
      ∃ s, lookupA sid ast.sessions = some s ∧ now - s.last_access ≤ SESSION_TIMEOUT) ∧
    (∀ s, lookupA sid ast.sessions = some s → SESSION_TIMEOUT < now - s.last_access →
      lookupA sid (advValidate ast now sid).2.sessions = none) ∧
    (∀ s, lookupA sid ast.sessions = some s → now - s.last_access ≤ SESSION_TIMEOUT →
      (advValidate ast now sid).1 = some { s with last_access := now } ∧
      lookupA sid (advValidate ast now sid).2.sessions = some { s with last_access := now }) ∧
    ((simpleValidate sst now sid).1 = true ↔
      ∃ s, lookupA sid sst.sessions = some s ∧ now - s.last_access ≤ SESSION_TIMEOUT) ∧
    (∀ s, lookupA sid sst.sessions = some s → SESSION_TIMEOUT < now - s.last_access →
      lookupA sid (simpleValidate sst now sid).2.sessions = none ∧
      lookupA sid (simpleValidate sst now sid).2.command_history = none) ∧
    (∀ s, lookupA sid sst.sessions = some s → now - s.last_access ≤ SESSION_TIMEOUT →
      lookupA sid (simpleValidate sst now sid).2.sessions = some { s with last_access := now }) := by
  refine ⟨?_, ?_, ?_, ?_, ?_, ?_⟩
  · constructor
    · intro h
      cases hl : lookupA sid ast.sessions with
      | none => rw [advValidate_unknown ast now sid hl] at h; simp at h
      | some s =>
        by_cases hexp : SESSION_TIMEOUT < now - s.last_access
        · rw [advValidate_expired ast now sid s hl hexp] at h; simp at h
        · exact ⟨s, rfl, Int.not_lt.mp hexp⟩
    · rintro ⟨s, hl, hle⟩
      rw [advValidate_fresh ast now sid s hl (Int.not_lt.mpr hle)]
      rfl
  · intro s hl hexp
    rw [advValidate_expired ast now sid s hl hexp]
    exact lookupA_eraseA_self sid ast.sessions
  · intro s hl hle
    rw [advValidate_fresh ast now sid s hl (Int.not_lt.mpr hle)]
    simp [lookupA_updateA]
  · constructor
    · intro h
      cases hl : lookupA sid sst.sessions with
      | none => rw [simpleValidate_unknown sst now sid hl] at h; simp at h
      | some s =>
        by_cases hexp : SESSION_TIMEOUT < now - s.last_access
        · rw [simpleValidate_expired sst now sid s hl hexp] at h; simp at h
        · exact ⟨s, rfl, Int.not_lt.mp hexp⟩
    · rintro ⟨s, hl, hle⟩
      rw [simpleValidate_fresh sst now sid s hl (Int.not_lt.mpr hle)]
  · intro s hl hexp
    rw [simpleValidate_expired sst now sid s hl hexp]
    exact ⟨lookupA_eraseA_self sid sst.sessions, lookupA_eraseA_self sid sst.command_history⟩
  · intro s hl hle
    rw [simpleValidate_fresh sst now sid s hl (Int.not_lt.mpr hle)]
    simp [lookupA_updateA]

/-- C7 witness: a session idle for 10 seconds validates and its
`last_access` is refreshed to the current time. -/
theorem c7_witness :
    (advValidate advDemoState 10 "sid").1 = some { created := 0, last_access := 10, history := [] } ∧
    lookupA "sid" (advValidate advDemoState 10 "sid").2.sessions =
      some { created := 0, last_access := 10, history := [] } :=
  (c7_session_validation_amended advDemoState simpleDemoState 10 "sid").2.2.1
    { created := 0, last_access := 0, history := [] } rfl (by decide)

/-! ### C8 — history cap -/

/-- Every history stored in an advanced-server state is within the cap of
50 entries. -/
def advHistBounded (st : AdvState) : Prop :=
  ∀ sid s, lookupA sid st.sessions = some s → s.history.length ≤ 50

/-- Every history stored in a simple-server state is within the cap of
100 entries. -/
def simpleHistBounded (st : SimpleState) : Prop :=
  ∀ sid h, lookupA sid st.command_history = some h → h.length ≤ 100

theorem capAdv_length_le (h : List CommandRecord) : (capAdv h).length ≤ 50 := by
  simp [capAdv]
  omega

theorem capSimple_length_le (h : List CommandRecord) (r : CommandRecord)
    (hb : h.length ≤ 100) : (capSimple (h ++ [r])).length ≤ 100 := by
  simp [capSimple]
  split <;> simp <;> omega

/-- C8: the session history caps.  In both variants histories start empty
at session creation and every `add_command` keeps each stored history
within its cap (50 in the advanced variant, 100 in the simple one); and
appending a record to a history already at the cap evicts exactly the
oldest entry, preserving the insertion order of the rest
(`h.tail ++ [new record]`). -/
theorem c8_history_cap (ast : AdvState) (sst : SimpleState) (now : Int)
    (sid cmd : String) (b : Body) :
    (advHistBounded ast → advHistBounded (advAddCommand ast now sid cmd b)) ∧
    (advHistBounded ast → advHistBounded (advCreateSession ast now sid)) ∧
    (∀ s, lookupA sid ast.sessions = some s → ¬ SESSION_TIMEOUT < now - s.last_access →
      s.history.length = 50 →
      lookupA sid (advAddCommand ast now sid cmd b).sessions =
        some { created := s.created, last_access := now,
               history := s.history.tail ++ [{ timestamp := now, command := cmd, result := b }] }) ∧
    (simpleHistBounded sst → simpleHistBounded (simpleAddCommand sst now sid cmd b)) ∧
    (simpleHistBounded sst → simpleHistBounded (simpleCreateSession sst now sid)) ∧
    (∀ h, lookupA sid sst.command_history = some h → h.length = 100 →
      lookupA sid (simpleAddCommand sst now sid cmd b).command_history =
        some (h.tail ++ [{ timestamp := now, command := cmd, result := b }])) := by
  refine ⟨?_, ?_, ?_, ?_, ?_, ?_⟩
  · intro hb sid' s' hl'
    cases hl : lookupA sid ast.sessions with
    | none =>
      rw [advAddCommand, advValidate_unknown ast now sid hl] at hl'
      exact hb sid' s' hl'
    | some s =>
      by_cases hexp : SESSION_TIMEOUT < now - s.last_access
      · rw [advAddCommand, advValidate_expired ast now sid s hl hexp] at hl'
        by_cases hsid : sid' = sid
        · subst hsid; rw [lookupA_eraseA_self] at hl'; cases hl'
        · rw [lookupA_eraseA_ne hsid] at hl'
          exact hb sid' s' hl'
      · rw [advAddCommand_eq ast now sid cmd b s hl hexp, lookupA_updateA] at hl'
        by_cases hsid : sid' = sid
        · rw [if_pos hsid] at hl'
          cases hl'
          exact capAdv_length_le _
        · rw [if_neg hsid] at hl'
          exact hb sid' s' hl'
  · intro hb sid' s' hl'
    rw [advCreateSession, lookupA_updateA] at hl'
    by_cases hsid : sid' = sid
    · rw [if_pos hsid] at hl'
      cases hl'
      simp
    · rw [if_neg hsid] at hl'
      exact hb sid' s' hl'
  · intro s hl hexp hlen
    rw [advAddCommand_eq ast now sid cmd b s hl hexp, lookupA_updateA, if_pos rfl]
    have hne : s.history ≠ [] := by
      intro h0
      rw [h0] at hlen
      simp at hlen
    have hdrop : capAdv (s.history ++ [{ timestamp := now, command := cmd, result := b }]) =
        s.history.tail ++ [{ timestamp := now, command := cmd, result := b }] := by
      have hl1 : (s.history ++ [({ timestamp := now, command := cmd, result := b } : CommandRecord)]).length - 50 = 1 := by
        simp [hlen]
      rw [capAdv, hl1, List.drop_one, tail_append_of_ne_nil _ _ hne]
    rw [hdrop]
  · intro hb sid' h' hl'
    cases hl : lookupA sid sst.command_history with
    | none =>
      rw [simpleAddCommand] at hl'
      simp only [hl] at hl'
      exact hb sid' h' hl'
    | some hist =>
      by_cases hsid : sid' = sid
      · subst hsid
        rw [simpleAddCommand_history sst now sid' cmd b hist hl] at hl'
        cases hl'
        exact capSimple_length_le hist _ (hb sid' hist hl)
      · rw [simpleAddCommand] at hl'
        simp only [hl] at hl'
        cases hs : lookupA sid sst.sessions <;>
          simp only [hs, lookupA_updateA, if_neg hsid] at hl' <;>
          exact hb sid' h' hl'
  · intro hb sid' h' hl'
    rw [simpleCreateSession] at hl'
    simp only [lookupA_updateA] at hl'
    by_cases hsid : sid' = sid
    · rw [if_pos hsid] at hl'
      cases hl'
      simp
    · rw [if_neg hsid] at hl'
      exact hb sid' h' hl'
  · intro h hl hlen
    rw [simpleAddCommand_history sst now sid cmd b h hl]
    have hne : h ≠ [] := by
      intro h0
      rw [h0] at hlen
      simp at hlen
    have hcap : capSimple (h ++ [{ timestamp := now, command := cmd, result := b }]) =
        h.tail ++ [{ timestamp := now, command := cmd, result := b }] := by
      rw [capSimple, if_pos (by simp [hlen]), tail_append_of_ne_nil _ _ hne]
    rw [hcap]

/-- C8 witness: appending the 101st record to a simple-variant history of
exactly 100 entries evicts the oldest record and keeps the rest in order. -/
theorem c8_witness :
    lookupA "sid"
      (simpleAddCommand
        { sessions := [("sid", { created := 0, last_access := 0, commands_run := 100 })],
          command_history :=
            [("sid", List.replicate 100 { timestamp := 0, command := "pwd", result := {} })],
          rate := [] }
        7 "sid" "ls" { success := some true }).command_history =
      some (List.replicate 99 { timestamp := 0, command := "pwd", result := {} } ++
        [{ timestamp := 7, command := "ls", result := { success := some true } }]) := by
  have h := (c8_history_cap advDemoState
    { sessions := [("sid", { created := 0, last_access := 0, commands_run := 100 })],
      command_history :=
        [("sid", List.replicate 100 { timestamp := 0, command := "pwd", result := {} })],
      rate := [] }
    7 "sid" "ls" { success := some true }).2.2.2.2.2
    (List.replicate 100 { timestamp := 0, command := "pwd", result := {} })
    rfl (by simp)
  simpa using h

/-! ### C10 — whitespace-only command in the advanced variant -/

/-- C10: in the advanced variant a command that is non-empty but contains
no tokens (whitespace only) passes the empty-command check, then basename
extraction `command.split()[0]` raises `IndexError`, which the surrounding
`except` turns into the generic 500 "Server Execution Error" response
instead of the distinct empty-command denial; no subprocess is spawned and
nothing is recorded in the session history (only `last_access` was
refreshed by the earlier validation). -/
theorem c10_whitespace_command (allowedStr : String) (timeout : Nat) (home : String)
    (osEnv : String → Option String) (exec : String → ProcOutcome)
    (st : AdvState) (now : Int) (cmd sid : String) (s : AdvSession)
    (hs : lookupA sid st.sessions = some s)
    (hok : ¬ SESSION_TIMEOUT < now - s.last_access)
    (hne : ¬ cmd = "") (hws : pySplit cmd = []) :
    (advServeApiExecute allowedStr timeout home osEnv exec st now cmd sid).1.status = 500 ∧
    (advServeApiExecute allowedStr timeout home osEnv exec st now cmd sid).1.body.error =
      some ("Server Execution Error: list index out of range") ∧
    (advServeApiExecute allowedStr timeout home osEnv exec st now cmd sid).2.2 = [] ∧
    lookupA sid (advServeApiExecute allowedStr timeout home osEnv exec st now cmd sid).2.1.sessions =
      some { s with last_access := now } := by
  have hv := advValidate_fresh st now sid s hs hok
  simp only [advServeApiExecute, hv, hws]
  simp [hne, lookupA_updateA]

/-- C10 witness at the concrete whitespace-only command `" "`. -/
theorem c10_witness :
    (advServeApiExecute defaultAllowedCommands 30 "/home/mcp" (fun _ => none)
      (fun _ => ProcOutcome.timedOut) advDemoState 5 " " "sid").1.status = 500 ∧
    (advServeApiExecute defaultAllowedCommands 30 "/home/mcp" (fun _ => none)
      (fun _ => ProcOutcome.timedOut) advDemoState 5 " " "sid").1.body.error =
      some ("Server Execution Error: list index out of range") ∧
    (advServeApiExecute defaultAllowedCommands 30 "/home/mcp" (fun _ => none)
      (fun _ => ProcOutcome.timedOut) advDemoState 5 " " "sid").2.2 = [] ∧
    lookupA "sid" (advServeApiExecute defaultAllowedCommands 30 "/home/mcp" (fun _ => none)
      (fun _ => ProcOutcome.timedOut) advDemoState 5 " " "sid").2.1.sessions =
      some { created := 0, last_access := 5, history := [] } :=
  c10_whitespace_command defaultAllowedCommands 30 "/home/mcp" (fun _ => none)
    (fun _ => ProcOutcome.timedOut) advDemoState 5 " " "sid"
    { created := 0, last_access := 0, history := [] } rfl (by decide) (by decide) rfl

/-! ### Spawn characterization of the two pipelines -/

/-- If the simple variant's execute handler reached its `Popen` call, then
the session validated, the command was non-empty, its basename was in the
allowed set, no dangerous pattern matched, and the single spawn used the
request command, the pinned working directory and the PATH-overridden
inherited environment. -/
theorem simpleHandleExecute_spawn_sound (allowedStr : String) (timeout maxOutput : Nat)
    (home : String) (osEnv : String → Option String) (exec : String → ProcOutcome)
    (st : SimpleState) (now : Int) (cmd sid : String)
    (h : (simpleHandleExecute allowedStr timeout maxOutput home osEnv exec st now cmd sid).2.2 ≠ []) :
    (simpleValidate st now sid).1 = true ∧
    ¬ cmd = "" ∧
    (splitCommas allowedStr).contains ((pySplit cmd).headD "") = true ∧
    dangerous_patterns.find? (fun p => substrIn p cmd) = none ∧
    (simpleHandleExecute allowedStr timeout maxOutput home osEnv exec st now cmd sid).2.2 =
      [{ cmd := cmd, cwd := home, env := simpleSpawnEnv osEnv }] := by
  by_cases h1 : (simpleValidate st now sid).1 = false
  · exact absurd (by simp [simpleHandleExecute, h1]) h
  · have hv : (simpleValidate st now sid).1 = true := by
      revert h1
      cases (simpleValidate st now sid).1 <;> simp
    by_cases h2 : cmd = ""
    · exact absurd (by simp [simpleHandleExecute, h1, h2]) h
    · by_cases h3 : (splitCommas allowedStr).contains ((pySplit cmd).headD "") = false
      · refine absurd ?_ h
        have hmem : ¬ (pySplit cmd).head?.getD "" ∈ splitCommas allowedStr := by
          simpa [List.headD_eq_head?] using h3
        simp [simpleHandleExecute, h1, h2, hmem]
      · have hc : (splitCommas allowedStr).contains ((pySplit cmd).headD "") = true := by
          revert h3
          cases (splitCommas allowedStr).contains ((pySplit cmd).headD "") <;> simp
        have hmem : (pySplit cmd).head?.getD "" ∈ splitCommas allowedStr := by
          simpa [List.headD_eq_head?] using hc
        cases h4 : dangerous_patterns.find? (fun p => substrIn p cmd) with
        | some p => exact absurd (by simp [simpleHandleExecute, h1, h2, hmem, h4]) h
        | none =>
          exact ⟨hv, h2, hc, rfl, by simp [simpleHandleExecute, h1, h2, hmem, h4]⟩

/-- If the full simple-variant POST pipeline spawned a subprocess, the rate
limiter admitted the request and the execute handler passed every check. -/
theorem simpleDoPost_spawn_sound (limit : Nat) (allowedStr : String)
    (timeout maxOutput : Nat) (home : String) (osEnv : String → Option String)
    (exec : String → ProcOutcome) (st : SimpleState) (now : Int) (ip cmd sid : String)
    (h : (simpleDoPost limit allowedStr timeout maxOutput home osEnv exec st now ip cmd sid).2.2 ≠ []) :
    (rlAllowTable limit st.rate ip now).1 = true ∧
    (simpleValidate st now sid).1 = true ∧
    ¬ cmd = "" ∧
    (splitCommas allowedStr).contains ((pySplit cmd).headD "") = true ∧
    dangerous_patterns.find? (fun p => substrIn p cmd) = none ∧
    (simpleDoPost limit allowedStr timeout maxOutput home osEnv exec st now ip cmd sid).2.2 =
      [{ cmd := cmd, cwd := home, env := simpleSpawnEnv osEnv }] := by
  by_cases h0 : (rlAllowTable limit st.rate ip now).1 = false
  · exact absurd (by simp [simpleDoPost, h0]) h
  · have hr : (rlAllowTable limit st.rate ip now).1 = true := by
      revert h0
      cases (rlAllowTable limit st.rate ip now).1 <;> simp
    have hpipe :
        (simpleDoPost limit allowedStr timeout maxOutput home osEnv exec st now ip cmd sid) =
        simpleHandleExecute allowedStr timeout maxOutput home osEnv exec
          { st with rate := (rlAllowTable limit st.rate ip now).2 } now cmd sid := by
      simp [simpleDoPost, h0]
    rw [hpipe] at h
    obtain ⟨hv, hne, hc, hd, hsp⟩ := simpleHandleExecute_spawn_sound allowedStr timeout
      maxOutput home osEnv exec { st with rate := (rlAllowTable limit st.rate ip now).2 }
      now cmd sid h
    rw [simpleValidate_rate st (rlAllowTable limit st.rate ip now).2 now sid] at hv
    rw [hpipe]
    exact ⟨hr, hv, hne, hc, hd, hsp⟩

/-- The advanced pipeline either spawns nothing or spawns exactly the
request command with the pinned working directory and the fully inherited
environment. -/
theorem advServeApiExecute_spawn (allowedStr : String) (timeout : Nat) (home : String)
    (osEnv : String → Option String) (exec : String → ProcOutcome)
    (st : AdvState) (now : Int) (cmd sid : String) :
    (advServeApiExecute allowedStr timeout home osEnv exec st now cmd sid).2.2 = [] ∨
    (advServeApiExecute allowedStr timeout home osEnv exec st now cmd sid).2.2 =
      [{ cmd := cmd, cwd := home, env := osEnv }] := by
  by_cases h1 : (advValidate st now sid).1.isSome = false
  · left; simp [advServeApiExecute, h1]
  · by_cases h2 : cmd = ""
    · left; simp [advServeApiExecute, h1, h2]
    · cases h3 : (pySplit cmd).head? with
      | none => left; simp [advServeApiExecute, h1, h2, h3]
      | some base =>
        by_cases h4 : allowedStr = "*" ∨ (splitCommas allowedStr).contains base = true
        · right
          have h4' : allowedStr = "*" ∨ base ∈ splitCommas allowedStr := by simpa using h4
          cases h5 : exec cmd <;> simp [advServeApiExecute, h1, h2, h3, h4', h5]
        · left
          have h4' : ¬ allowedStr = "*" ∧ ¬ base ∈ splitCommas allowedStr := by
            simpa [not_or] using h4
          simp [advServeApiExecute, h1, h2, h3, h4'.1, h4'.2]

/-! ### C1 — admission before execution -/

/-- C1 counterexample.  The advanced variant's POST pipeline contains no
rate limiter at all: 61 consecutive execute-requests from the same client
at the same instant all spawn subprocesses, although the configured rate
limit (`RATE_LIMIT = 60` per 60-second window) admits at most 60 — so
commands are executed without any rate-limit admission there. -/
theorem c1_counterexample :
    (advRun defaultAllowedCommands (fun _ => ProcOutcome.timedOut) 61 advDemoState).1 = 61 ∧
    defaultRateLimit < 61 := by
  exact ⟨rfl, by decide⟩

/-- C1 (amended): in the simple variant no command is ever executed without
the POST request first passing rate-limit admission and the full policy
check: whenever the pipeline spawns a subprocess, the rate limiter admitted
the request, the session validated, the command was non-empty, its
basename was in the allowed set, and no dangerous pattern matched — and
the spawn is exactly the request command.  (The advanced variant has no
rate limiter and no dangerous-pattern scan; see the counterexample.) -/
theorem c1_admission_before_execution_amended (limit : Nat) (allowedStr : String)
    (timeout maxOutput : Nat) (home : String) (osEnv : String → Option String)
    (exec : String → ProcOutcome) (st : SimpleState) (now : Int) (ip cmd sid : String)
    (h : (simpleDoPost limit allowedStr timeout maxOutput home osEnv exec st now ip cmd sid).2.2 ≠ []) :
    (rlAllowTable limit st.rate ip now).1 = true ∧
    (simpleValidate st now sid).1 = true ∧
    ¬ cmd = "" ∧
    (splitCommas allowedStr).contains ((pySplit cmd).headD "") = true ∧
    dangerous_patterns.find? (fun p => substrIn p cmd) = none := by
  obtain ⟨hr, hv, hne, hc, hd, _⟩ := simpleDoPost_spawn_sound limit allowedStr timeout
    maxOutput home osEnv exec st now ip cmd sid h
  exact ⟨hr, hv, hne, hc, hd⟩

/-- C1 witness: a concrete admitted request (`ls` on a fresh session, empty
rate table) spawns, and the theorem yields all five admission facts. -/
theorem c1_witness :
    (rlAllowTable 60 simpleDemoState.rate "1.2.3.4" 0).1 = true ∧
    (simpleValidate simpleDemoState 0 "sid").1 = true ∧
    ¬ "ls" = "" ∧
    (splitCommas defaultAllowedCommands).contains ((pySplit "ls").headD "") = true ∧
    dangerous_patterns.find? (fun p => substrIn p "ls") = none := by
  refine c1_admission_before_execution_amended 60 defaultAllowedCommands 30 1048576
    "/home/mcp" (fun _ => none) (fun _ => ProcOutcome.completed "" "" 0)
    simpleDemoState 0 "1.2.3.4" "ls" "sid" ?_
  intro h0
  have hlen : (simpleDoPost 60 defaultAllowedCommands 30 1048576 "/home/mcp"
      (fun _ => none) (fun _ => ProcOutcome.completed "" "" 0)
      simpleDemoState 0 "1.2.3.4" "ls" "sid").2.2.length = 1 := rfl
  rw [h0] at hlen
  simp at hlen

/-! ### C2 — dangerous-pattern scan -/

/-- C2 counterexample.  The advanced variant performs no forbidden-substring
scan at all: `cat /etc/passwd` contains the forbidden pattern `/etc/`, yet
the advanced pipeline (restricted mode, default whitelist, valid session)
spawns a subprocess for it and answers 200. -/
theorem c2_counterexample :
    substrIn "/etc/" "cat /etc/passwd" = true ∧
    (advServeApiExecute defaultAllowedCommands 30 "/home/mcp" (fun _ => none)
      (fun _ => ProcOutcome.completed "root:x:0:0:root:/root:/bin/bash" "" 0)
      advDemoState 0 "cat /etc/passwd" "sid").2.2.length = 1 ∧
    (advServeApiExecute defaultAllowedCommands 30 "/home/mcp" (fun _ => none)
      (fun _ => ProcOutcome.completed "root:x:0:0:root:/root:/bin/bash" "" 0)
      advDemoState 0 "cat /etc/passwd" "sid").1.status = 200 := by
  exact ⟨rfl, rfl, rfl⟩

/-- C2 (amended): in the simple variant only, a command whose basename
passed the whitelist is scanned against the fixed forbidden-substring list;
the first match `p` yields status 200 with body
`success=false, error='Security violation: dangerous pattern "<p>"
detected'`, no subprocess is spawned, and the failure is recorded in the
session history.  (The advanced variant has no such scan; see the
counterexample.) -/
theorem c2_pattern_scan_amended (allowedStr : String) (timeout maxOutput : Nat)
    (home : String) (osEnv : String → Option String) (exec : String → ProcOutcome)
    (st : SimpleState) (now : Int) (cmd sid p : String) (s : SimpleSession)
    (hist : List CommandRecord)
    (hs : lookupA sid st.sessions = some s)
    (hok : ¬ SESSION_TIMEOUT < now - s.last_access)
    (hh : lookupA sid st.command_history = some hist)
    (hne : ¬ cmd = "")
    (hbase : (splitCommas allowedStr).contains ((pySplit cmd).headD "") = true)
    (hfind : dangerous_patterns.find? (fun q => substrIn q cmd) = some p) :
    (simpleHandleExecute allowedStr timeout maxOutput home osEnv exec st now cmd sid).1.status = 200 ∧
    (simpleHandleExecute allowedStr timeout maxOutput home osEnv exec st now cmd sid).1.body =
      simpleDeniedBody (dangerMsg p) ∧
    (simpleHandleExecute allowedStr timeout maxOutput home osEnv exec st now cmd sid).2.2 = [] ∧
    lookupA sid
      (simpleHandleExecute allowedStr timeout maxOutput home osEnv exec st now cmd sid).2.1.command_history =
      some (capSimple (hist ++
        [{ timestamp := now, command := cmd, result := simpleDeniedBody (dangerMsg p) }])) := by
  have hval := simpleValidate_fresh st now sid s hs hok
  have hmem : (pySplit cmd).head?.getD "" ∈ splitCommas allowedStr := by
    simpa [List.headD_eq_head?] using hbase
  have hh1 : lookupA sid ({ st with
      sessions := updateA sid { s with last_access := now } st.sessions }).command_history =
      some hist := hh
  simp only [simpleHandleExecute, hval, hfind]
  refine ⟨by simp [hne, hmem], by simp [hne, hmem], by simp [hne, hmem], ?_⟩
  have hrec := simpleAddCommand_history
    { st with sessions := updateA sid { s with last_access := now } st.sessions }
    now sid cmd (simpleDeniedBody (dangerMsg p)) hist hh1
  simp [hne, hmem, hrec]

/-- C2 witness at the concrete command `ls ..` (basename `ls` allowed, the
first matching forbidden pattern is `..`). -/
theorem c2_witness :
    (simpleHandleExecute defaultAllowedCommands 30 1048576 "/home/mcp" (fun _ => none)
      (fun _ => ProcOutcome.completed "" "" 0) simpleDemoState 0 "ls .." "sid").1.status = 200 ∧
    (simpleHandleExecute defaultAllowedCommands 30 1048576 "/home/mcp" (fun _ => none)
      (fun _ => ProcOutcome.completed "" "" 0) simpleDemoState 0 "ls .." "sid").1.body =
      simpleDeniedBody (dangerMsg "..") ∧
    (simpleHandleExecute defaultAllowedCommands 30 1048576 "/home/mcp" (fun _ => none)
      (fun _ => ProcOutcome.completed "" "" 0) simpleDemoState 0 "ls .." "sid").2.2 = [] ∧
    lookupA "sid"
      (simpleHandleExecute defaultAllowedCommands 30 1048576 "/home/mcp" (fun _ => none)
        (fun _ => ProcOutcome.completed "" "" 0) simpleDemoState 0 "ls .." "sid").2.1.command_history =
      some (capSimple ([] ++
        [{ timestamp := 0, command := "ls ..", result := simpleDeniedBody (dangerMsg "..") }])) :=
  c2_pattern_scan_amended defaultAllowedCommands 30 1048576 "/home/mcp" (fun _ => none)
    (fun _ => ProcOutcome.completed "" "" 0) simpleDemoState 0 "ls .." "sid" ".."
    { created := 0, last_access := 0, commands_run := 0 } [] rfl (by decide) rfl
    (by decide) (by decide) rfl

/-! ### C3 — basename denial -/

/-- C3 counterexample.  The claim says a basename denial is returned with a
403-equivalent status; the simple variant sends every policy denial through
`send_json_response`, which always answers HTTP 200 (the failure is only in
the JSON payload): for `rm -rf /` (basename `rm` not in the default
whitelist) the transport status is 200, not 403. -/
theorem c3_counterexample :
    (simpleHandleExecute defaultAllowedCommands 30 1048576 "/home/mcp" (fun _ => none)
      (fun _ => ProcOutcome.completed "" "" 0) simpleDemoState 0 "rm -rf /" "sid").1.status = 200 ∧
    (simpleHandleExecute defaultAllowedCommands 30 1048576 "/home/mcp" (fun _ => none)
      (fun _ => ProcOutcome.completed "" "" 0) simpleDemoState 0 "rm -rf /" "sid").1.body.success =
      some false ∧
    (simpleHandleExecute defaultAllowedCommands 30 1048576 "/home/mcp" (fun _ => none)
      (fun _ => ProcOutcome.completed "" "" 0) simpleDemoState 0 "rm -rf /" "sid").2.2 = [] := by
  exact ⟨rfl, rfl, rfl⟩

/-- C3 (amended): under a non-unrestricted policy, a command whose basename
is not in the allowed set is denied, the Execution Engine is never invoked,
and a failed CommandRecord for that command is appended to the session's
history — but only the advanced variant uses a 403 status, while the simple
variant answers HTTP 200 carrying `success=false` and the explanatory
reason in the JSON payload. -/
theorem c3_basename_denial_amended
    (allowedStr : String) (timeout maxOutput : Nat) (home : String)
    (osEnv : String → Option String) (exec : String → ProcOutcome)
    (sst : SimpleState) (now : Int) (cmd sid : String) (s : SimpleSession)
    (hist : List CommandRecord)
    (hs : lookupA sid sst.sessions = some s)
    (hok : ¬ SESSION_TIMEOUT < now - s.last_access)
    (hh : lookupA sid sst.command_history = some hist)
    (hne : ¬ cmd = "")
    (hnc : (splitCommas allowedStr).contains ((pySplit cmd).headD "") = false)
    (ast : AdvState) (now2 : Int) (cmd2 sid2 base : String) (s2 : AdvSession)
    (hs2 : lookupA sid2 ast.sessions = some s2)
    (hok2 : ¬ SESSION_TIMEOUT < now2 - s2.last_access)
    (hne2 : ¬ cmd2 = "")
    (hhead2 : (pySplit cmd2).head? = some base)
    (hnu2 : ¬ allowedStr = "*")
    (hnc2 : (splitCommas allowedStr).contains base = false) :
    (simpleHandleExecute allowedStr timeout maxOutput home osEnv exec sst now cmd sid).1.status = 200 ∧
    (simpleHandleExecute allowedStr timeout maxOutput home osEnv exec sst now cmd sid).1.body =
      simpleDeniedBody (mkNotAllowedMsg ((pySplit cmd).headD "") (splitCommas allowedStr)) ∧
    (simpleHandleExecute allowedStr timeout maxOutput home osEnv exec sst now cmd sid).2.2 = [] ∧
    lookupA sid
      (simpleHandleExecute allowedStr timeout maxOutput home osEnv exec sst now cmd sid).2.1.command_history =
      some (capSimple (hist ++
        [{ timestamp := now, command := cmd,
           result := simpleDeniedBody
             (mkNotAllowedMsg ((pySplit cmd).headD "") (splitCommas allowedStr)) }])) ∧
    (advServeApiExecute allowedStr timeout home osEnv exec ast now2 cmd2 sid2).1.status = 403 ∧
    (advServeApiExecute allowedStr timeout home osEnv exec ast now2 cmd2 sid2).1.body =
      advDeniedBody base cmd2 ∧
    (advServeApiExecute allowedStr timeout home osEnv exec ast now2 cmd2 sid2).2.2 = [] ∧
    lookupA sid2
      (advServeApiExecute allowedStr timeout home osEnv exec ast now2 cmd2 sid2).2.1.sessions =
      some { created := s2.created, last_access := now2,
             history := capAdv (s2.history ++
               [{ timestamp := now2, command := cmd2,
                  result := advDeniedBody base cmd2 }]) } := by
  have hval := simpleValidate_fresh sst now sid s hs hok
  have hmem : ¬ (pySplit cmd).head?.getD "" ∈ splitCommas allowedStr := by
    simpa [List.headD_eq_head?] using hnc
  have hh1 : lookupA sid ({ sst with
      sessions := updateA sid { s with last_access := now } sst.sessions }).command_history =
      some hist := hh
  have hrec := simpleAddCommand_history
    { sst with sessions := updateA sid { s with last_access := now } sst.sessions }
    now sid cmd
    (simpleDeniedBody (mkNotAllowedMsg ((pySplit cmd).headD "") (splitCommas allowedStr)))
    hist hh1
  have hval2 := advValidate_fresh ast now2 sid2 s2 hs2 hok2
  have hmem2 : ¬ (allowedStr = "*" ∨ base ∈ splitCommas allowedStr) := by
    rintro (h | h)
    · exact hnu2 h
    · revert h
      simpa using hnc2
  have hs2' : lookupA sid2 (updateA sid2 { s2 with last_access := now2 } ast.sessions) =
      some { s2 with last_access := now2 } := by
    rw [lookupA_updateA, if_pos rfl]
  have hok2' : ¬ SESSION_TIMEOUT < now2 - ({ s2 with last_access := now2 } : AdvSession).last_access := by
    simp [SESSION_TIMEOUT]
  have hrec2 := advAddCommand_eq { sessions := updateA sid2 { s2 with last_access := now2 } ast.sessions }
    now2 sid2 cmd2 (advDeniedBody base cmd2) { s2 with last_access := now2 } hs2' hok2'
  refine ⟨?_, ?_, ?_, ?_, ?_, ?_, ?_, ?_⟩
  · simp [simpleHandleExecute, hval, hne, hmem, List.headD_eq_head?]
  · simp [simpleHandleExecute, hval, hne, hmem, List.headD_eq_head?]
  · simp [simpleHandleExecute, hval, hne, hmem, List.headD_eq_head?]
  · simp only [simpleHandleExecute, hval]
    simp only [List.headD_eq_head?] at hrec ⊢
    simp [hne, hmem, hrec]
  · simp [advServeApiExecute, hval2, hne2, hhead2, hmem2]
  · simp [advServeApiExecute, hval2, hne2, hhead2, hmem2]
  · simp [advServeApiExecute, hval2, hne2, hhead2, hmem2]
  · simp only [advServeApiExecute, hval2, hhead2]
    simp only [hrec2]
    simp [hne2, hmem2, hrec2, lookupA_updateA]

/-- C3 witness: `rm -rf /` denied in both variants at concrete states. -/
theorem c3_witness :
    (simpleHandleExecute defaultAllowedCommands 30 1048576 "/home/mcp" (fun _ => none)
      (fun _ => ProcOutcome.timedOut) simpleDemoState 0 "rm -rf /tmp" "sid").1.status = 200 ∧
    (simpleHandleExecute defaultAllowedCommands 30 1048576 "/home/mcp" (fun _ => none)
      (fun _ => ProcOutcome.timedOut) simpleDemoState 0 "rm -rf /tmp" "sid").1.body =
      simpleDeniedBody (mkNotAllowedMsg ((pySplit "rm -rf /tmp").headD "")
        (splitCommas defaultAllowedCommands)) ∧
    (simpleHandleExecute defaultAllowedCommands 30 1048576 "/home/mcp" (fun _ => none)
      (fun _ => ProcOutcome.timedOut) simpleDemoState 0 "rm -rf /tmp" "sid").2.2 = [] ∧
    lookupA "sid"
      (simpleHandleExecute defaultAllowedCommands 30 1048576 "/home/mcp" (fun _ => none)
        (fun _ => ProcOutcome.timedOut) simpleDemoState 0 "rm -rf /tmp" "sid").2.1.command_history =
      some (capSimple ([] ++
        [{ timestamp := 0, command := "rm -rf /tmp",
           result := simpleDeniedBody
             (mkNotAllowedMsg ((pySplit "rm -rf /tmp").headD "")
               (splitCommas defaultAllowedCommands)) }])) ∧
    (advServeApiExecute defaultAllowedCommands 30 "/home/mcp" (fun _ => none)
      (fun _ => ProcOutcome.timedOut) advDemoState 5 "rm -rf /tmp" "sid").1.status = 403 ∧
    (advServeApiExecute defaultAllowedCommands 30 "/home/mcp" (fun _ => none)
      (fun _ => ProcOutcome.timedOut) advDemoState 5 "rm -rf /tmp" "sid").1.body =
      advDeniedBody "rm" "rm -rf /tmp" ∧
    (advServeApiExecute defaultAllowedCommands 30 "/home/mcp" (fun _ => none)
      (fun _ => ProcOutcome.timedOut) advDemoState 5 "rm -rf /tmp" "sid").2.2 = [] ∧
    lookupA "sid"
      (advServeApiExecute defaultAllowedCommands 30 "/home/mcp" (fun _ => none)
        (fun _ => ProcOutcome.timedOut) advDemoState 5 "rm -rf /tmp" "sid").2.1.sessions =
      some { created := 0, last_access := 5,
             history := capAdv ([] ++
               [{ timestamp := 5, command := "rm -rf /tmp",
                  result := advDeniedBody "rm" "rm -rf /tmp" }]) } :=
  c3_basename_denial_amended defaultAllowedCommands 30 1048576 "/home/mcp" (fun _ => none)
    (fun _ => ProcOutcome.timedOut) simpleDemoState 0 "rm -rf /tmp" "sid"
    { created := 0, last_access := 0, commands_run := 0 } [] rfl (by decide) rfl
    (by decide) (by decide)
    advDemoState 5 "rm -rf /tmp" "sid" "rm"
    { created := 0, last_access := 0, history := [] } rfl (by decide)
    (by decide) rfl (by decide) (by decide)

/-! ### C4 — timeout handling -/

/-- C4 counterexample.  The claim says a timed-out execution returns an
ExecutionResult with `success=false` and a timeout error; in the advanced
variant `subprocess.run`'s `TimeoutExpired` propagates to the generic
`except` handler, which answers HTTP 500 with a `Server Execution Error`
message and no `success` field at all. -/
theorem c4_counterexample :
    (advServeApiExecute defaultAllowedCommands 30 "/home/mcp" (fun _ => none)
      (fun _ => ProcOutcome.timedOut) advDemoState 0 "ls" "sid").1.status = 500 ∧
    (advServeApiExecute defaultAllowedCommands 30 "/home/mcp" (fun _ => none)
      (fun _ => ProcOutcome.timedOut) advDemoState 0 "ls" "sid").1.body.success = none ∧
    (advServeApiExecute defaultAllowedCommands 30 "/home/mcp" (fun _ => none)
      (fun _ => ProcOutcome.timedOut) advDemoState 0 "ls" "sid").1.body.error =
      some ("Server Execution Error: " ++ timeoutExpiredStr "ls" 30) := by
  exact ⟨rfl, rfl, rfl⟩

/-- C4 (amended): when the spawned process is still running at the timeout
deadline, the simple variant answers 200 with
`success=false, error='Command timed out after Ns seconds'` and records the
failure; the advanced variant answers the generic 500 `Server Execution
Error: Command '<cmd>' timed out after Ns seconds` response with no
`success` field and records nothing (only `last_access` was refreshed).
In both, the spawn call itself was reached (whether the child is then
terminated is operating-system behaviour outside this model; the simple
variant's `except TimeoutExpired` branch contains no termination call). -/
theorem c4_timeout_amended (allowedStr : String) (timeout maxOutput : Nat)
    (home : String) (osEnv : String → Option String) (exec : String → ProcOutcome)
    (sst : SimpleState) (now : Int) (cmd sid : String)
    (hv : (simpleValidate sst now sid).1 = true)
    (hne : ¬ cmd = "")
    (hbase : (splitCommas allowedStr).contains ((pySplit cmd).headD "") = true)
    (hfind : dangerous_patterns.find? (fun q => substrIn q cmd) = none)
    (hx : exec cmd = ProcOutcome.timedOut)
    (ast : AdvState) (now2 : Int) (cmd2 sid2 base : String) (s2 : AdvSession)
    (exec2 : String → ProcOutcome)
    (hs2 : lookupA sid2 ast.sessions = some s2)
    (hok2 : ¬ SESSION_TIMEOUT < now2 - s2.last_access)
    (hne2 : ¬ cmd2 = "")
    (hhead2 : (pySplit cmd2).head? = some base)
    (hallow2 : allowedStr = "*" ∨ (splitCommas allowedStr).contains base = true)
    (hx2 : exec2 cmd2 = ProcOutcome.timedOut) :
    (simpleHandleExecute allowedStr timeout maxOutput home osEnv exec sst now cmd sid).1.status = 200 ∧
    (simpleHandleExecute allowedStr timeout maxOutput home osEnv exec sst now cmd sid).1.body.success =
      some false ∧
    (simpleHandleExecute allowedStr timeout maxOutput home osEnv exec sst now cmd sid).1.body.error =
      some ("Command timed out after " ++ toString timeout ++ " seconds") ∧
    (simpleHandleExecute allowedStr timeout maxOutput home osEnv exec sst now cmd sid).2.2.length = 1 ∧
    (advServeApiExecute allowedStr timeout home osEnv exec2 ast now2 cmd2 sid2).1.status = 500 ∧
    (advServeApiExecute allowedStr timeout home osEnv exec2 ast now2 cmd2 sid2).1.body.success = none ∧
    (advServeApiExecute allowedStr timeout home osEnv exec2 ast now2 cmd2 sid2).1.body.error =
      some ("Server Execution Error: " ++ timeoutExpiredStr cmd2 timeout) ∧
    (advServeApiExecute allowedStr timeout home osEnv exec2 ast now2 cmd2 sid2).2.2.length = 1 ∧
    lookupA sid2
      (advServeApiExecute allowedStr timeout home osEnv exec2 ast now2 cmd2 sid2).2.1.sessions =
      some { s2 with last_access := now2 } := by
  have hvf : ¬ (simpleValidate sst now sid).1 = false := by simp [hv]
  have hmem : (pySplit cmd).head?.getD "" ∈ splitCommas allowedStr := by
    simpa [List.headD_eq_head?] using hbase
  have hval2 := advValidate_fresh ast now2 sid2 s2 hs2 hok2
  have hallow2' : allowedStr = "*" ∨ base ∈ splitCommas allowedStr := by
    simpa using hallow2
  refine ⟨?_, ?_, ?_, ?_, ?_, ?_, ?_, ?_, ?_⟩ <;>
    simp [simpleHandleExecute, advServeApiExecute, hvf, hne, hmem, hfind, hx,
      simpleExecBody, simpleDeniedBody, hval2, hne2, hhead2, hallow2', hx2,
      lookupA_updateA]

/-- C4 witness: a timed-out `sleep`-style command (`ls` with a timing-out
oracle) at concrete states in both variants. -/
theorem c4_witness :
    (simpleHandleExecute defaultAllowedCommands 30 1048576 "/home/mcp" (fun _ => none)
      (fun _ => ProcOutcome.timedOut) simpleDemoState 0 "ls" "sid").1.status = 200 ∧
    (simpleHandleExecute defaultAllowedCommands 30 1048576 "/home/mcp" (fun _ => none)
      (fun _ => ProcOutcome.timedOut) simpleDemoState 0 "ls" "sid").1.body.success = some false ∧
    (simpleHandleExecute defaultAllowedCommands 30 1048576 "/home/mcp" (fun _ => none)
      (fun _ => ProcOutcome.timedOut) simpleDemoState 0 "ls" "sid").1.body.error =
      some ("Command timed out after " ++ toString 30 ++ " seconds") ∧
    (simpleHandleExecute defaultAllowedCommands 30 1048576 "/home/mcp" (fun _ => none)
      (fun _ => ProcOutcome.timedOut) simpleDemoState 0 "ls" "sid").2.2.length = 1 ∧
    (advServeApiExecute defaultAllowedCommands 30 "/home/mcp" (fun _ => none)
      (fun _ => ProcOutcome.timedOut) advDemoState 5 "cat x" "sid").1.status = 500 ∧
    (advServeApiExecute defaultAllowedCommands 30 "/home/mcp" (fun _ => none)
      (fun _ => ProcOutcome.timedOut) advDemoState 5 "cat x" "sid").1.body.success = none ∧
    (advServeApiExecute defaultAllowedCommands 30 "/home/mcp" (fun _ => none)
      (fun _ => ProcOutcome.timedOut) advDemoState 5 "cat x" "sid").1.body.error =
      some ("Server Execution Error: " ++ timeoutExpiredStr "cat x" 30) ∧
    (advServeApiExecute defaultAllowedCommands 30 "/home/mcp" (fun _ => none)
      (fun _ => ProcOutcome.timedOut) advDemoState 5 "cat x" "sid").2.2.length = 1 ∧
    lookupA "sid"
      (advServeApiExecute defaultAllowedCommands 30 "/home/mcp" (fun _ => none)
        (fun _ => ProcOutcome.timedOut) advDemoState 5 "cat x" "sid").2.1.sessions =
      some { created := 0, last_access := 5, history := [] } :=
  c4_timeout_amended defaultAllowedCommands 30 1048576 "/home/mcp" (fun _ => none)
    (fun _ => ProcOutcome.timedOut) simpleDemoState 0 "ls" "sid"
    rfl (by decide) (by decide) rfl rfl
    advDemoState 5 "cat x" "sid" "cat"
    { created := 0, last_access := 0, history := [] }
    (fun _ => ProcOutcome.timedOut) rfl (by decide) (by decide) rfl
    (Or.inr (by decide)) rfl

/-! ### C5 — output truncation -/

/-- C5 counterexample.  The advanced variant performs no output truncation
and never reads the `MAX_OUTPUT_SIZE` setting (its handler has no such
parameter): with the budget configured to 4 bytes, an 8-character stdout is
returned unmodified, with no truncation marker. -/
theorem c5_counterexample :
    (advServeApiExecute defaultAllowedCommands 30 "/home/mcp" (fun _ => none)
      (fun _ => ProcOutcome.completed "AAAAAAAA" "" 0)
      advDemoState 0 "ls" "sid").1.body.output = some "AAAAAAAA" ∧
    ("AAAAAAAA" : String).length = 8 := by
  exact ⟨rfl, rfl⟩

/-- C5 (amended): in the simple variant each captured stream is truncated
independently.  A completed execution reports
`output = truncateStream max_output marker stdout` and likewise for
stderr (with the per-stream markers noting the threshold); any stream of at
most `max_output` characters is returned unmodified, and any longer stream
is cut to exactly its first `max_output` characters with the marker
appended.  (The advanced variant performs no truncation; see the
counterexample.) -/
theorem c5_truncation_amended (allowedStr : String) (timeout maxOutput : Nat)
    (home : String) (osEnv : String → Option String) (exec : String → ProcOutcome)
    (st : SimpleState) (now : Int) (cmd sid out err : String) (rc : Int)
    (hv : (simpleValidate st now sid).1 = true)
    (hne : ¬ cmd = "")
    (hbase : (splitCommas allowedStr).contains ((pySplit cmd).headD "") = true)
    (hfind : dangerous_patterns.find? (fun q => substrIn q cmd) = none)
    (hx : exec cmd = ProcOutcome.completed out err rc) :
    (simpleHandleExecute allowedStr timeout maxOutput home osEnv exec st now cmd sid).1.body.output =
      some (truncateStream maxOutput (truncMarkerOut maxOutput) out) ∧
    (simpleHandleExecute allowedStr timeout maxOutput home osEnv exec st now cmd sid).1.body.error =
      some (truncateStream maxOutput (truncMarkerErr maxOutput) err) ∧
    (simpleHandleExecute allowedStr timeout maxOutput home osEnv exec st now cmd sid).1.body.exit_code =
      some rc ∧
    (∀ q m : String, q.length ≤ maxOutput → truncateStream maxOutput m q = q) ∧
    (∀ q m : String, maxOutput < q.length →
      truncateStream maxOutput m q = strTake q maxOutput ++ m) := by
  have hvf : ¬ (simpleValidate st now sid).1 = false := by simp [hv]
  have hmem : (pySplit cmd).head?.getD "" ∈ splitCommas allowedStr := by
    simpa [List.headD_eq_head?] using hbase
  refine ⟨?_, ?_, ?_, ?_, ?_⟩
  · simp [simpleHandleExecute, hvf, hne, hmem, hfind, hx, simpleExecBody]
  · simp [simpleHandleExecute, hvf, hne, hmem, hfind, hx, simpleExecBody]
  · simp [simpleHandleExecute, hvf, hne, hmem, hfind, hx, simpleExecBody]
  · intro q m hle
    simp [truncateStream, Nat.not_lt.mpr hle]
  · intro q m hgt
    simp [truncateStream, hgt]

/-- C5 witness: with a 4-character budget, a 6-character stdout is cut to
its first 4 characters plus the marker and an empty stderr is unchanged. -/
theorem c5_witness :
    (simpleHandleExecute defaultAllowedCommands 30 4 "/home/mcp" (fun _ => none)
      (fun _ => ProcOutcome.completed "HELLO!" "" 0)
      simpleDemoState 0 "ls" "sid").1.body.output =
      some (truncateStream 4 (truncMarkerOut 4) "HELLO!") ∧
    (simpleHandleExecute defaultAllowedCommands 30 4 "/home/mcp" (fun _ => none)
      (fun _ => ProcOutcome.completed "HELLO!" "" 0)
      simpleDemoState 0 "ls" "sid").1.body.error =
      some (truncateStream 4 (truncMarkerErr 4) "") ∧
    truncateStream 4 (truncMarkerOut 4) "HELLO!" = "HELL" ++ truncMarkerOut 4 ∧
    truncateStream 4 (truncMarkerErr 4) "" = "" := by
  have h := c5_truncation_amended defaultAllowedCommands 30 4 "/home/mcp" (fun _ => none)
    (fun _ => ProcOutcome.completed "HELLO!" "" 0) simpleDemoState 0 "ls" "sid"
    "HELLO!" "" 0 rfl (by decide) (by decide) rfl rfl
  exact ⟨h.1, h.2.1,
    (h.2.2.2.2 "HELLO!" (truncMarkerOut 4) (by decide)).trans rfl,
    h.2.2.2.1 "" (truncMarkerErr 4) (by decide)⟩

/-! ### C6 — working directory and environment of the spawned process -/

/-- C6 counterexample.  The claim says the child environment is restricted
to a minimal PATH rather than the full inherited environment; the simple
variant builds `\x7b**os.environ, 'PATH': ...\x7d`, i.e. the full inherited
environment with only PATH replaced: an inherited `LD_PRELOAD` survives
into the child environment. -/
theorem c6_counterexample :
    ((simpleHandleExecute defaultAllowedCommands 30 1048576 "/home/mcp"
        (fun k => if k = "LD_PRELOAD" then some "evil.so" else none)
        (fun _ => ProcOutcome.completed "" "" 0)
        simpleDemoState 0 "ls" "sid").2.2.headD noSpawn).env ("LD_PRELOAD") =
      some "evil.so" ∧
    (simpleHandleExecute defaultAllowedCommands 30 1048576 "/home/mcp"
        (fun k => if k = "LD_PRELOAD" then some "evil.so" else none)
        (fun _ => ProcOutcome.completed "" "" 0)
        simpleDemoState 0 "ls" "sid").2.2.length = 1 := by
  exact ⟨rfl, rfl⟩

/-- C6 (amended): every spawned subprocess runs with its working directory
pinned to the server's home directory (a request-independent parameter)
and executes the request command; the child environment is the full
inherited environment — in the simple variant with `PATH` overridden to
`/usr/local/bin:/usr/bin:/bin` and all other inherited variables passed
through, and in the advanced variant entirely unchanged. -/
theorem c6_spawn_confinement_amended (limit : Nat) (allowedStr : String)
    (timeout maxOutput : Nat) (home : String) (osEnv : String → Option String)
    (exec : String → ProcOutcome) (sst : SimpleState) (now : Int) (ip cmd sid : String)
    (allowedStr2 : String) (timeout2 : Nat) (home2 : String)
    (osEnv2 : String → Option String) (exec2 : String → ProcOutcome)
    (ast : AdvState) (now2 : Int) (cmd2 sid2 : String) :
    (∀ sp ∈ (simpleDoPost limit allowedStr timeout maxOutput home osEnv exec
        sst now ip cmd sid).2.2,
      sp.cwd = home ∧ sp.cmd = cmd ∧ sp.env ("PATH") = some minimalPath ∧
      ∀ k, ¬ k = "PATH" → sp.env k = osEnv k) ∧
    (∀ sp ∈ (advServeApiExecute allowedStr2 timeout2 home2 osEnv2 exec2
        ast now2 cmd2 sid2).2.2,
      sp.cwd = home2 ∧ sp.cmd = cmd2 ∧ sp.env = osEnv2) := by
  constructor
  · intro sp hsp
    have hne : (simpleDoPost limit allowedStr timeout maxOutput home osEnv exec
        sst now ip cmd sid).2.2 ≠ [] := by
      intro h0
      rw [h0] at hsp
      exact absurd hsp (List.not_mem_nil sp)
    obtain ⟨-, -, -, -, -, heq⟩ := simpleDoPost_spawn_sound limit allowedStr timeout maxOutput
      home osEnv exec sst now ip cmd sid hne
    rw [heq] at hsp
    rw [List.mem_singleton] at hsp
    subst hsp
    refine ⟨rfl, rfl, rfl, ?_⟩
    intro k hk
    simp [simpleSpawnEnv, hk]
  · intro sp hsp
    rcases advServeApiExecute_spawn allowedStr2 timeout2 home2 osEnv2 exec2
      ast now2 cmd2 sid2 with h0 | h0
    · rw [h0] at hsp
      exact absurd hsp (List.not_mem_nil sp)
    · rw [h0] at hsp
      rw [List.mem_singleton] at hsp
      subst hsp
      exact ⟨rfl, rfl, rfl⟩

/-- C6 witness: the concrete spawn of `ls` in each variant has the pinned
working directory and the variant's environment handling. -/
theorem c6_witness :
    ({ cmd := "ls", cwd := "/home/mcp",
       env := simpleSpawnEnv (fun _ => none) } : SpawnSpec).cwd = "/home/mcp" ∧
    ({ cmd := "ls", cwd := "/home/mcp",
       env := simpleSpawnEnv (fun _ => none) } : SpawnSpec).cmd = "ls" ∧
    ({ cmd := "ls", cwd := "/home/mcp",
       env := simpleSpawnEnv (fun _ => none) } : SpawnSpec).env ("PATH") = some minimalPath ∧
    ∀ k, ¬ k = "PATH" →
      ({ cmd := "ls", cwd := "/home/mcp",
         env := simpleSpawnEnv (fun _ => none) } : SpawnSpec).env k = (fun _ => none : String → Option String) k := by
  refine (c6_spawn_confinement_amended 60 defaultAllowedCommands 30 1048576 "/home/mcp"
    (fun _ => none) (fun _ => ProcOutcome.completed "" "" 0) simpleDemoState 0
    "1.2.3.4" "ls" "sid"
    defaultAllowedCommands 30 "/home/mcp" (fun _ => none)
    (fun _ => ProcOutcome.completed "" "" 0) advDemoState 0 "ls" "sid").1
    { cmd := "ls", cwd := "/home/mcp", env := simpleSpawnEnv (fun _ => none) } ?_
  have heq : (simpleDoPost 60 defaultAllowedCommands 30 1048576 "/home/mcp"
      (fun _ => none) (fun _ => ProcOutcome.completed "" "" 0) simpleDemoState 0
      "1.2.3.4" "ls" "sid").2.2 =
      [{ cmd := "ls", cwd := "/home/mcp", env := simpleSpawnEnv (fun _ => none) }] := rfl
  rw [heq]
  exact List.mem_singleton.mpr rfl
